import Mathlib

/-!
A shallow embedding of the WordPress site-provisioning utility
(`main.py`, and the split revision `dockerManager.py` / `wordpressManager.py`).

The program is a sequence of filesystem operations, external process
invocations and log messages, gated by platform detection.  We model it as
explicit state passing over a `World`:

* the filesystem is a list of existing directories plus an association list
  of file contents, paths being lists of name segments (site names are
  treated as single path segments, per the data-model invariant of the
  repository; the literal segment ".." used by `os.chdir('..')` is resolved
  against the current directory);
* every external command invocation is recorded in an event trace together
  with the working directory it ran in; the effect of `sudo rm -rf` (the one
  external command with a filesystem effect the program relies on) is applied
  to the modelled filesystem;
* the hosts file is a list of appended lines; symbolic links are a list of
  (source, target) pairs;
* Python exceptions are modelled by an `Except` result carried next to the
  world at the point of the raise (`sys.exit(n)` raises `SystemExit n`);
* the environment `Env` supplies what the OS decides: the platform string,
  the Linux distribution name (`platform.linux_distribution()[0]`, provided
  by the environment), which executables exist on PATH (launching a missing
  one raises `FileNotFoundError`), the exit status of each external command
  (`check=True` raises `CalledProcessError` on a nonzero status), and whether
  the hosts file is writable.
-/

abbrev FPath := List String

/-- One observable event of the program: an external command run in a given
working directory, or a filesystem / hosts-file effect. -/
inductive Event where
  | run (argv : List String) (cwd : FPath)
  | chdir (target : FPath)
  | writeFile (p : FPath)
  | mkdirs (p : FPath)
  | rmtree (p : FPath)
  | hostsAppend (line : String)
  | symlink (source target : String)
deriving DecidableEq, Repr

/-- Python exceptions that the program can raise or catch. -/
inductive PyErr where
  | fileNotFound (what : String)
  | calledProcessError (argv : List String)
  | unboundLocal (var : String)
  | typeError (what : String)
  | systemExit (code : Nat)
deriving DecidableEq, Repr

/-- The operating system as reported by `platform.system()`. -/
inductive Platform where
  | linux
  | darwin
  | windows
  | other (name : String)
deriving DecidableEq, Repr

/-- The modelled filesystem: existing directories and file contents. -/
structure FS where
  dirs : List FPath
  files : List (FPath × String)
deriving DecidableEq, Repr

/-- First-match lookup in the association list of files. -/
def lookupAssoc : List (FPath × String) → FPath → Option String
  | [], _ => none
  | (q, c) :: rest, p => if q = p then some c else lookupAssoc rest p

def FS.lookupFile (fs : FS) (p : FPath) : Option String :=
  lookupAssoc fs.files p

/-- `os.path.exists`: true for a directory or a file at the path. -/
def FS.pathExists (fs : FS) (p : FPath) : Prop :=
  p ∈ fs.dirs ∨ fs.lookupFile p ≠ none

instance (fs : FS) (p : FPath) : Decidable (fs.pathExists p) := by
  unfold FS.pathExists
  exact inferInstance

/-- `open(p, 'w').write(c)`: record the new contents, shadowing any previous
entry for the same path. -/
def FS.writeFile (fs : FS) (p : FPath) (c : String) : FS :=
  { fs with files := (p, c) :: fs.files }

/-- `os.makedirs(p)` for a single new segment (the parent, the current
working directory, always exists in the modelled runs). -/
def FS.makedirs (fs : FS) (p : FPath) : FS :=
  { fs with dirs := p :: fs.dirs }

/-- Recursive removal of the tree rooted at `p`: every directory and file
whose path has `p` as a prefix disappears. -/
def FS.rmtree (fs : FS) (p : FPath) : FS :=
  { dirs := fs.dirs.filter (fun d => !(p.isPrefixOf d)),
    files := fs.files.filter (fun q => !(p.isPrefixOf q.1)) }

/-- The whole mutable state of one process run. -/
structure World where
  cwd : FPath
  fs : FS
  hosts : List String
  symlinks : List (String × String)
  trace : List Event
  log : List String
deriving DecidableEq, Repr

/-- What the operating system environment decides. -/
structure Env where
  platform : Platform
  distro : String
  execExists : String → Bool
  runOk : List String → Bool
  hostsWriteOk : Bool

/-- A Python computation: it transforms the world and either returns a value
or raises; on a raise the world at the point of the raise is kept. -/
abbrev PyM (α : Type) := World → World × Except PyErr α

/-- Resolving one relative path segment against a directory (`..` goes up). -/
def resolveSeg (cwd : FPath) (seg : String) : FPath :=
  if seg = ".." then cwd.dropLast else cwd ++ [seg]

/-- Rendering an absolute modelled path as an OS path string. -/
def pathStr (p : FPath) : String :=
  "/" ++ String.intercalate "/" p

/-- Python's `str.lower()`, character by character. -/
def strLower (s : String) : String := ⟨s.data.map Char.toLower⟩

instance exceptDecEq {ε α : Type} [DecidableEq ε] [DecidableEq α] :
    DecidableEq (Except ε α) := fun a b =>
  match a, b with
  | .error e, .error f =>
    if h : e = f then isTrue (by rw [h]) else isFalse (by simp [h])
  | .ok x, .ok y =>
    if h : x = y then isTrue (by rw [h]) else isFalse (by simp [h])
  | .error _, .ok _ => isFalse (by simp)
  | .ok _, .error _ => isFalse (by simp)

/-- `logger.info` / `logger.error`: append the message to the log. -/
def logMsg (msg : String) : PyM Unit := fun w =>
  ({ w with log := w.log ++ [msg] }, .ok ())

/-- `os.chdir(seg)` for a relative segment. -/
def osChdir (seg : String) : PyM Unit := fun w =>
  let target := resolveSeg w.cwd seg
  if target ∈ w.fs.dirs then
    ({ w with cwd := target, trace := w.trace ++ [.chdir target] }, .ok ())
  else (w, .error (.fileNotFound seg))

/-- `os.chdir(p)` for an absolute path. -/
def osChdirAbs (target : FPath) : PyM Unit := fun w =>
  if target ∈ w.fs.dirs then
    ({ w with cwd := target, trace := w.trace ++ [.chdir target] }, .ok ())
  else (w, .error (.fileNotFound (pathStr target)))

/-- Writing a file in the current working directory. -/
def writeFileAt (fname content : String) : PyM Unit := fun w =>
  let p := w.cwd ++ [fname]
  ({ w with fs := w.fs.writeFile p content, trace := w.trace ++ [.writeFile p] },
   .ok ())

/-- `subprocess.run(argv, check=check)`: a missing executable raises
`FileNotFoundError` before anything runs; otherwise the invocation is
recorded, and with `check` a nonzero status raises `CalledProcessError`. -/
def subprocessRun (env : Env) (argv : List String) (check : Bool) :
    PyM Unit := fun w =>
  match argv with
  | [] => (w, .error (.fileNotFound ""))
  | prog :: _ =>
    if env.execExists prog then
      let w' := { w with trace := w.trace ++ [.run argv w.cwd] }
      if env.runOk argv || !check then (w', .ok ())
      else (w', .error (.calledProcessError argv))
    else (w, .error (.fileNotFound prog))

/-- `shutil.rmtree(p)`: removal of the tree, `FileNotFoundError` when the
path does not exist. -/
def shutilRmtree (p : FPath) : PyM Unit := fun w =>
  if w.fs.pathExists p then
    ({ w with fs := w.fs.rmtree p, trace := w.trace ++ [.rmtree p] }, .ok ())
  else (w, .error (.fileNotFound (pathStr p)))

/-- The Docker Compose file contents (`compose_content` in the source):
an f-string that interpolates nothing, hence a constant. -/
def compose_content : String :=
  "version: \x273\x27\nservices:\n  db:\n    image: mysql:latest\n    restart: always\n    environment:\n      MYSQL_DATABASE: wordpress\n      MYSQL_USER: wordpress\n      MYSQL_PASSWORD: wordpress\n      MYSQL_RANDOM_ROOT_PASSWORD: \x271\x27\n    volumes:\n      - db_data:/var/lib/mysql\n  wordpress:\n    depends_on:\n      - db\n    image: wordpress:latest\n    restart: always\n    environment:\n      WORDPRESS_DB_HOST: db:3306\n      WORDPRESS_DB_USER: wordpress\n      WORDPRESS_DB_PASSWORD: wordpress\n    ports:\n      - \"80:80\"\n    volumes:\n      - ./wp-content:/var/www/html/wp-content\nvolumes:\n  db_data:\n"

/-- The NGINX configuration contents (`nginx_content` in the source), the
site name interpolated as `server_name`. -/
def nginx_content (site_name : String) : String :=
  "server \x7b\n    listen 80;\n    server_name " ++ site_name ++
  ";\n\n    location / \x7b\n        proxy_pass http://wordpress:80;\n        proxy_set_header Host $host;\n        proxy_set_header X-Real-IP $remote_addr;\n        proxy_set_header X-Forwarded-For $proxy_add_x_forwarded_for;\n        proxy_set_header X-Forwarded-Proto $scheme;\n    \x7d\n\x7d\n"

/-- The pair of rendered artifacts for a site (the SiteArtifactGenerator
`render` operation of the specification): pure string templating. -/
def render (site_name : String) : String × String :=
  (compose_content, nginx_content site_name)

namespace DockerManager

/-- `DockerManager.check_dependency_installed` (identical in `main.py` and
`dockerManager.py`): run `<dependency> --version` with `check=True`,
catching only `FileNotFoundError` (missing executable → `False`); any other
failure propagates. -/
def check_dependency_installed (env : Env) (dependency : String) :
    PyM Bool := fun w =>
  match subprocessRun env [dependency, "--version"] true w with
  | (w', .ok _) => (w', .ok true)
  | (w', .error (.fileNotFound _)) => (w', .ok false)
  | (w', .error e) => (w', .error e)

/-- `DockerManager.install_dependency` (identical in both revisions):
platform-dispatched package installation; unsupported combinations are
logged and skipped.  `platform.linux_distribution()[0]` is supplied by the
environment as `env.distro`. -/
def install_dependency (env : Env) (dependency : String) : PyM Unit := fun w =>
  match logMsg (dependency ++ " is not installed. Installing...") w with
  | (w, _) =>
    match env.platform with
    | .linux =>
      if strLower env.distro = "rhel" ∨ strLower env.distro = "centos" ∨
          strLower env.distro = "suse" then
        subprocessRun env ["sudo", "yum", "install", "-y", dependency] true w
      else if strLower env.distro = "ubuntu" then
        subprocessRun env ["sudo", "apt", "install", "-y", dependency] true w
      else
        logMsg "Package installation is not supported on this Linux distribution." w
    | .darwin => subprocessRun env ["brew", "install", dependency] true w
    | .windows => subprocessRun env ["choco", "install", "-y", dependency] true w
    | .other _ =>
      logMsg "Package installation is not supported on this operating system." w

/-- `DockerManager.create_symbolic_link` (identical in both revisions):
`sudo ln -s` on Linux, `mklink` on Windows, logged and skipped elsewhere.
On success the link is recorded. -/
def create_symbolic_link (env : Env) (source target : String) :
    PyM Unit := fun w =>
  match env.platform with
  | .linux =>
    match subprocessRun env ["sudo", "ln", "-s", source, target] true w with
    | (w', .ok _) =>
      ({ w' with symlinks := w'.symlinks ++ [(source, target)],
                 trace := w'.trace ++ [.symlink source target] }, .ok ())
    | (w', .error e) => (w', .error e)
  | .windows =>
    match subprocessRun env ["cmd", "/C", "mklink", "/D", target, source] true w with
    | (w', .ok _) =>
      ({ w' with symlinks := w'.symlinks ++ [(source, target)],
                 trace := w'.trace ++ [.symlink source target] }, .ok ())
    | (w', .error e) => (w', .error e)
  | _ =>
    logMsg "Symbolic link creation is not supported on this operating system." w

end DockerManager

namespace WordPressManager

/-- `WordPressManager.create_wordpress_site` (identical in both revisions):
`os.chdir(site_name)`, write both generated files, compute the symlink
target (only assigned for Linux and Windows — on any other platform the
later read of `nginx_conf_symlink` raises `UnboundLocalError`), create the
symlink, then `docker-compose up -d`. -/
def create_wordpress_site (env : Env) (site_name : String) :
    PyM Unit := fun w =>
  match osChdir site_name w with
  | (w, .error e) => (w, .error e)
  | (w, .ok _) =>
    match writeFileAt "docker-compose.yml" compose_content w with
    | (w, _) =>
      match writeFileAt "nginx.conf" (nginx_content site_name) w with
      | (w, _) =>
        let nginx_conf_path := pathStr (w.cwd ++ ["nginx.conf"])
        match (match env.platform with
          | .linux => Except.ok "/etc/nginx/sites-enabled/"
          | .windows =>
            Except.ok ("C:\\nginx\\conf\\sites-enabled\\" ++ site_name)
          | _ => Except.error (PyErr.unboundLocal "nginx_conf_symlink")) with
        | .error e => (w, .error e)
        | .ok nginx_conf_symlink =>
          match DockerManager.create_symbolic_link env nginx_conf_path
              nginx_conf_symlink w with
          | (w, .error e) => (w, .error e)
          | (w, .ok _) =>
            subprocessRun env ["docker-compose", "up", "-d"] true w

/-- `WordPressManager.enable_disable_site` from `main.py`: start or stop the
containers and log through the working module-level `logger` instance. -/
def enable_disable_site (env : Env) (action : String) : PyM Unit := fun w =>
  if action = "enable" then
    match subprocessRun env ["docker-compose", "start"] true w with
    | (w, .ok _) => logMsg "Site enabled." w
    | (w, .error e) => (w, .error e)
  else if action = "disable" then
    match subprocessRun env ["docker-compose", "stop"] true w with
    | (w, .ok _) => logMsg "Site disabled." w
    | (w, .error e) => (w, .error e)
  else (w, .ok ())

/-- `WordPressManager.delete_site` from `main.py`:
`site_path = pathlib.Path(site_name).resolve()`;
`os.chdir(site_path.parent)`; `docker-compose down` (checked);
`os.chdir('..')`; `shutil.rmtree(os.path.abspath(site_name))`
(the `.replace('\\', '/')` is the identity in the segment model). -/
def delete_site (env : Env) (site_name : String) : PyM Unit := fun w =>
  let site_path := resolveSeg w.cwd site_name
  match osChdirAbs site_path.dropLast w with
  | (w, .error e) => (w, .error e)
  | (w, .ok _) =>
    match subprocessRun env ["docker-compose", "down"] true w with
    | (w, .error e) => (w, .error e)
    | (w, .ok _) =>
      match osChdir ".." w with
      | (w, .error e) => (w, .error e)
      | (w, .ok _) =>
        match shutilRmtree (resolveSeg w.cwd site_name) w with
        | (w, .error e) => (w, .error e)
        | (w, .ok _) => logMsg "Site deleted." w

/-- `WordPressManager.add_hosts_entry` from `main.py`: append the literal
line to the platform hosts file; the write is wrapped in a broad catch that
only logs; unsupported platforms are logged and skipped. -/
def add_hosts_entry (env : Env) (site_name : String) : PyM Unit := fun w =>
  match env.platform with
  | .windows =>
    if env.hostsWriteOk then
      ({ w with hosts := w.hosts ++ ["127.0.0.1 " ++ site_name],
                trace := w.trace ++ [.hostsAppend ("127.0.0.1 " ++ site_name)],
                log := w.log ++ ["Hosts entry added successfully."] }, .ok ())
    else logMsg "Failed to add hosts entry: write failed" w
  | .linux =>
    if env.hostsWriteOk then
      ({ w with hosts := w.hosts ++ ["127.0.0.1 " ++ site_name],
                trace := w.trace ++ [.hostsAppend ("127.0.0.1 " ++ site_name)],
                log := w.log ++ ["Hosts entry added successfully."] }, .ok ())
    else logMsg "Failed to add hosts entry: write failed" w
  | _ =>
    logMsg "Hosts file modification is not supported on this operating system." w

end WordPressManager

namespace ModRev

/-- `WordPressManager.enable_disable_site` from `wordpressManager.py`: the
same commands, but the `Logger.info("Site enabled.")` call passes the
message as `self` and omits `message`, raising `TypeError` after the
command has run. -/
def enable_disable_site (env : Env) (action : String) : PyM Unit := fun w =>
  if action = "enable" then
    match subprocessRun env ["docker-compose", "start"] true w with
    | (w, .ok _) => (w, .error (.typeError "Logger.info"))
    | (w, .error e) => (w, .error e)
  else if action = "disable" then
    match subprocessRun env ["docker-compose", "stop"] true w with
    | (w, .ok _) => (w, .error (.typeError "Logger.info"))
    | (w, .error e) => (w, .error e)
  else (w, .ok ())

/-- `WordPressManager.delete_site` from `wordpressManager.py`:
`os.chdir(site_name)`; `docker-compose down` (checked); `os.chdir('..')`;
`subprocess.run(['sudo', 'rm', '-rf', site_name])` without `check` (the
external `rm -rf` removes the tree when it succeeds, and never reports a
missing path); the final `Logger.info("Site deleted.")` raises `TypeError`. -/
def delete_site (env : Env) (site_name : String) : PyM Unit := fun w =>
  match osChdir site_name w with
  | (w, .error e) => (w, .error e)
  | (w, .ok _) =>
    match subprocessRun env ["docker-compose", "down"] true w with
    | (w, .error e) => (w, .error e)
    | (w, .ok _) =>
      match osChdir ".." w with
      | (w, .error e) => (w, .error e)
      | (w, .ok _) =>
        if env.execExists "sudo" then
          let argv := ["sudo", "rm", "-rf", site_name]
          let tgt := resolveSeg w.cwd site_name
          let w1 := { w with trace := w.trace ++ [.run argv w.cwd] }
          let w2 :=
            if env.runOk argv then
              { w1 with fs := w1.fs.rmtree tgt, trace := w1.trace ++ [.rmtree tgt] }
            else w1
          (w2, .error (.typeError "Logger.info"))
        else (w, .error (.fileNotFound "sudo"))

/-- `WordPressManager.add_hosts_entry` from `wordpressManager.py`: same
append to the hosts file, but every `Logger.info` / `Logger.error` call is
the broken class-method call: on an unsupported platform it raises before
logging; on Linux/Windows the `Logger.info` inside the `try` raises, the
broad `except` catches it, and the `Logger.error` in the handler raises
`TypeError` out of the function — after the hosts line was appended. -/
def add_hosts_entry (env : Env) (site_name : String) : PyM Unit := fun w =>
  match env.platform with
  | .windows =>
    if env.hostsWriteOk then
      ({ w with hosts := w.hosts ++ ["127.0.0.1 " ++ site_name],
                trace := w.trace ++ [.hostsAppend ("127.0.0.1 " ++ site_name)] },
       .error (.typeError "Logger.error"))
    else (w, .error (.typeError "Logger.error"))
  | .linux =>
    if env.hostsWriteOk then
      ({ w with hosts := w.hosts ++ ["127.0.0.1 " ++ site_name],
                trace := w.trace ++ [.hostsAppend ("127.0.0.1 " ++ site_name)] },
       .error (.typeError "Logger.error"))
    else (w, .error (.typeError "Logger.error"))
  | _ => (w, .error (.typeError "Logger.info"))

end ModRev

/-- Lines 298–301 of `main.py`: `if not os.path.exists(site_name):
os.makedirs(site_name)` followed by `create_wordpress_site(site_name)` —
one `create` invocation of the CLI. -/
def createFlow (env : Env) (site_name : String) : PyM Unit := fun w =>
  let p := resolveSeg w.cwd site_name
  let w :=
    if w.fs.pathExists p then w
    else { w with fs := w.fs.makedirs p, trace := w.trace ++ [.mkdirs p] }
  WordPressManager.create_wordpress_site env site_name w

/-- Lines 286–290 of `main.py`: check docker and docker-compose, installing
each one that is reported missing. -/
def dependency_phase (env : Env) : PyM Unit := fun w =>
  match DockerManager.check_dependency_installed env "docker" w with
  | (w, .error e) => (w, .error e)
  | (w, .ok installed) =>
    match (if installed then (w, Except.ok ())
           else DockerManager.install_dependency env "docker" w) with
    | (w, .error e) => (w, .error e)
    | (w, .ok _) =>
      match DockerManager.check_dependency_installed env "docker-compose" w with
      | (w, .error e) => (w, .error e)
      | (w, .ok installed2) =>
        if installed2 then (w, .ok ())
        else DockerManager.install_dependency env "docker-compose" w

/-- `main()` of `main.py` given the process argument vector: dependency
phase; exit code 1 when no site name was passed; create; hosts entry;
argparse subcommand dispatch (an unrecognised extra argument makes argparse
exit with status 2). -/
def mainFlow (env : Env) (argv : List String) : PyM Unit := fun w =>
  match dependency_phase env w with
  | (w, .error e) => (w, .error e)
  | (w, .ok _) =>
    if argv.length < 2 then
      ({ w with log := w.log ++
          ["Please provide a site name as a command-line argument."] },
       .error (.systemExit 1))
    else
      match argv.get? 1 with
      | none => (w, .error (.systemExit 1))
      | some site_name =>
        match createFlow env site_name w with
        | (w, .error e) => (w, .error e)
        | (w, .ok _) =>
          match WordPressManager.add_hosts_entry env site_name w with
          | (w, .error e) => (w, .error e)
          | (w, .ok _) =>
            match logMsg "WordPress site created successfully." w with
            | (w, _) =>
              match argv.get? 2 with
              | some "enable" => WordPressManager.enable_disable_site env "enable" w
              | some "disable" => WordPressManager.enable_disable_site env "disable" w
              | some "delete" => WordPressManager.delete_site env site_name w
              | none => logMsg "Your site is running on localhost." w
              | some _ => (w, .error (.systemExit 2))

/-- A Linux environment in which every executable exists and every external
command succeeds. -/
def linuxEnv : Env :=
  { platform := .linux, distro := "Ubuntu",
    execExists := fun _ => true, runOk := fun _ => true,
    hostsWriteOk := true }

/-- A macOS environment in which every executable exists and every external
command succeeds. -/
def darwinEnv : Env :=
  { platform := .darwin, distro := "",
    execExists := fun _ => true, runOk := fun _ => true,
    hostsWriteOk := true }

/-- Whether `pat` occurs as a contiguous run inside a character list. -/
def infixAux (pat : List Char) : List Char → Bool
  | [] => pat.isEmpty
  | c :: rest => pat.isPrefixOf (c :: rest) || infixAux pat rest

/-- Whether `pat` occurs as a contiguous substring of `s`. -/
def strContainsSub (s pat : String) : Bool := infixAux pat.data s.data

/-- Calling `add_hosts_entry` (the `main.py` revision) `n` times in a row. -/
def iterHosts (env : Env) (site_name : String) : Nat → World → World
  | 0, w => w
  | n + 1, w =>
    iterHosts env site_name n (WordPressManager.add_hosts_entry env site_name w).1

set_option maxRecDepth 10000 in
/-- C2: rendering the Compose and NGINX templates is deterministic — the same
site name always yields byte-identical compose and nginx content — and for
site name "demo" the rendered nginx output contains `server_name demo;` and
the compose output the fixed image tags `mysql:latest` and
`wordpress:latest`. -/
theorem render_deterministic_and_demo_contents (s t : String) (h : s = t) :
    render s = render t ∧
    strContainsSub (render "demo").2 "server_name demo;" = true ∧
    strContainsSub (render "demo").1 "mysql:latest" = true ∧
    strContainsSub (render "demo").1 "wordpress:latest" = true := by
  subst h
  exact ⟨rfl, by decide, by decide, by decide⟩

set_option maxRecDepth 10000 in
/-- Witness for C2 at site name "demo". -/
theorem render_deterministic_and_demo_contents_witness :
    render "demo" = render "demo" ∧
    strContainsSub (render "demo").2 "server_name demo;" = true ∧
    strContainsSub (render "demo").1 "mysql:latest" = true ∧
    strContainsSub (render "demo").1 "wordpress:latest" = true :=
  render_deterministic_and_demo_contents "demo" "demo" rfl

/-- One `add_hosts_entry` call on a supported platform with a writable hosts
file appends exactly the literal line. -/
theorem add_hosts_entry_hosts_eq (env : Env) (site_name : String) (w : World)
    (hp : env.platform = .linux ∨ env.platform = .windows)
    (hw : env.hostsWriteOk = true) :
    (WordPressManager.add_hosts_entry env site_name w).1.hosts
      = w.hosts ++ ["127.0.0.1 " ++ site_name] := by
  rcases hp with hp | hp <;> simp [WordPressManager.add_hosts_entry, hp, hw]

/-- C9: on a supported platform `add_hosts_entry` appends exactly the literal
line `127.0.0.1 <site_name>` to the hosts file with no duplicate check, so
`n` calls leave `n` copies of the line appended. -/
theorem add_hosts_entry_appends_n_copies (env : Env) (site_name : String)
    (w : World) (n : Nat)
    (hp : env.platform = .linux ∨ env.platform = .windows)
    (hw : env.hostsWriteOk = true) :
    (WordPressManager.add_hosts_entry env site_name w).1.hosts
      = w.hosts ++ ["127.0.0.1 " ++ site_name] ∧
    (iterHosts env site_name n w).hosts
      = w.hosts ++ List.replicate n ("127.0.0.1 " ++ site_name) := by
  refine ⟨add_hosts_entry_hosts_eq env site_name w hp hw, ?_⟩
  induction n generalizing w with
  | zero => simp [iterHosts]
  | succ k ih =>
    rw [iterHosts, ih, add_hosts_entry_hosts_eq env site_name w hp hw]
    simp [List.replicate_succ]

/-- A world used to instantiate witnesses and counterexamples: the process
sits in `/root/work`, the site directory `demo` already exists. -/
def demoWorld : World :=
  { cwd := ["root", "work"],
    fs := { dirs := [[], ["root"], ["root", "work"], ["root", "work", "demo"]],
            files := [] },
    hosts := [], symlinks := [], trace := [], log := [] }

/-- Witness for C9 at `n = 2` on Linux. -/
theorem add_hosts_entry_appends_n_copies_witness :
    (WordPressManager.add_hosts_entry linuxEnv "demo" demoWorld).1.hosts
      = demoWorld.hosts ++ ["127.0.0.1 demo"] ∧
    (iterHosts linuxEnv "demo" 2 demoWorld).hosts
      = demoWorld.hosts ++ List.replicate 2 "127.0.0.1 demo" :=
  add_hosts_entry_appends_n_copies linuxEnv "demo" demoWorld 2
    (Or.inl rfl) rfl

/-- C5: `delete_site` (in both revisions) leaves the hosts file and the
recorded NGINX symlinks unchanged on every input and on every outcome: it
never reverses the hosts-file entry or removes the symlink created by
provisioning. -/
theorem delete_site_preserves_hosts_and_symlinks (env : Env)
    (site_name : String) (w : World) :
    (WordPressManager.delete_site env site_name w).1.hosts = w.hosts ∧
    (WordPressManager.delete_site env site_name w).1.symlinks = w.symlinks ∧
    (ModRev.delete_site env site_name w).1.hosts = w.hosts ∧
    (ModRev.delete_site env site_name w).1.symlinks = w.symlinks := by
  refine ⟨?_, ?_, ?_, ?_⟩ <;>
    (simp only [WordPressManager.delete_site, ModRev.delete_site]
     try dsimp only
     repeat' split) <;>
    simp only [osChdirAbs, osChdir, subprocessRun, shutilRmtree, logMsg] at * <;>
    split_ifs at * <;> simp only [Prod.mk.injEq] at * <;> casesm* _ ∧ _ <;>
    (try subst_vars) <;> simp_all [FS.rmtree]

/-- Whether an event is an invocation of a package-manager install command
for the given dependency. -/
def isInstallRunFor (dep : String) : Event → Bool
  | .run argv _ =>
    decide (argv = ["sudo", "yum", "install", "-y", dep] ∨
            argv = ["sudo", "apt", "install", "-y", dep] ∨
            argv = ["brew", "install", dep] ∨
            argv = ["choco", "install", "-y", dep])
  | _ => false

/-- C7: for every dependency whose executable does not exist, the dependency
check returns `False` without raising, and the provisioning flow then
triggers exactly one install invocation for that dependency (shown here on
the macOS/brew path with docker missing and docker-compose present). -/
theorem missing_dependency_checked_and_installed_once (env : Env)
    (dep : String) (w : World)
    (hdep : env.execExists dep = false)
    (hdocker : env.execExists "docker" = false)
    (hplat : env.platform = .darwin)
    (hbrew : env.execExists "brew" = true)
    (hbrewok : env.runOk ["brew", "install", "docker"] = true)
    (hdc : env.execExists "docker-compose" = true)
    (hdcok : env.runOk ["docker-compose", "--version"] = true) :
    DockerManager.check_dependency_installed env dep w = (w, .ok false) ∧
    (dependency_phase env w).2 = .ok () ∧
    (dependency_phase env w).1.trace
      = w.trace ++ [.run ["brew", "install", "docker"] w.cwd,
                    .run ["docker-compose", "--version"] w.cwd] ∧
    ((dependency_phase env w).1.trace.filter (isInstallRunFor "docker")).length
      = (w.trace.filter (isInstallRunFor "docker")).length + 1 := by
  have hcheck : DockerManager.check_dependency_installed env dep w
      = (w, .ok false) := by
    simp [DockerManager.check_dependency_installed, subprocessRun, hdep]
  have hphase : dependency_phase env w
      = ({ w with
            trace := w.trace ++ [.run ["brew", "install", "docker"] w.cwd,
                                 .run ["docker-compose", "--version"] w.cwd],
            log := w.log ++ ["docker is not installed. Installing..."] },
         .ok ()) := by
    simp [dependency_phase, DockerManager.check_dependency_installed,
          DockerManager.install_dependency, subprocessRun, logMsg,
          hdocker, hplat, hbrew, hbrewok, hdc, hdcok]
  refine ⟨hcheck, ?_, ?_, ?_⟩ <;> rw [hphase] <;>
    simp [List.filter_append, isInstallRunFor]

/-- An environment for the C7 witness: everything exists except docker. -/
def noDockerEnv : Env :=
  { platform := .darwin, distro := "",
    execExists := fun s => !(s == "docker"), runOk := fun _ => true,
    hostsWriteOk := true }

/-- Witness for C7 in `noDockerEnv` from `demoWorld`. -/
theorem missing_dependency_checked_and_installed_once_witness :
    DockerManager.check_dependency_installed noDockerEnv "docker" demoWorld
      = (demoWorld, .ok false) ∧
    (dependency_phase noDockerEnv demoWorld).2 = .ok () ∧
    (dependency_phase noDockerEnv demoWorld).1.trace
      = demoWorld.trace ++
        [.run ["brew", "install", "docker"] demoWorld.cwd,
         .run ["docker-compose", "--version"] demoWorld.cwd] ∧
    ((dependency_phase noDockerEnv demoWorld).1.trace.filter
        (isInstallRunFor "docker")).length
      = (demoWorld.trace.filter (isInstallRunFor "docker")).length + 1 :=
  missing_dependency_checked_and_installed_once noDockerEnv "docker" demoWorld
    rfl rfl rfl rfl rfl rfl rfl

/-- C8: invoking the CLI without a site-name argument exits with status code
1 and performs no filesystem mutation: no directory or file change, no
hosts-file change, no symlink change. -/
theorem missing_site_name_exits_one (env : Env) (argv : List String)
    (w : World)
    (h1 : env.execExists "docker" = true)
    (h2 : env.runOk ["docker", "--version"] = true)
    (h3 : env.execExists "docker-compose" = true)
    (h4 : env.runOk ["docker-compose", "--version"] = true)
    (h5 : argv.length < 2) :
    (mainFlow env argv w).2 = .error (.systemExit 1) ∧
    (mainFlow env argv w).1.fs = w.fs ∧
    (mainFlow env argv w).1.hosts = w.hosts ∧
    (mainFlow env argv w).1.symlinks = w.symlinks := by
  have hphase : mainFlow env argv w
      = ({ w with
            trace := w.trace ++ [.run ["docker", "--version"] w.cwd,
                                 .run ["docker-compose", "--version"] w.cwd],
            log := w.log ++
              ["Please provide a site name as a command-line argument."] },
         .error (.systemExit 1)) := by
    simp [mainFlow, dependency_phase, DockerManager.check_dependency_installed,
          subprocessRun, h1, h2, h3, h4, h5]
  rw [hphase]
  exact ⟨rfl, rfl, rfl, rfl⟩

/-- Witness for C8: `argv` holds only the program name. -/
theorem missing_site_name_exits_one_witness :
    (mainFlow linuxEnv ["main.py"] demoWorld).2 = .error (.systemExit 1) ∧
    (mainFlow linuxEnv ["main.py"] demoWorld).1.fs = demoWorld.fs ∧
    (mainFlow linuxEnv ["main.py"] demoWorld).1.hosts = demoWorld.hosts ∧
    (mainFlow linuxEnv ["main.py"] demoWorld).1.symlinks = demoWorld.symlinks :=
  missing_site_name_exits_one linuxEnv ["main.py"] demoWorld rfl rfl rfl rfl
    (by decide)

/-- Whether an event is the `docker-compose up -d` invocation. -/
def isComposeUpRun : Event → Bool
  | .run argv _ => decide (argv = ["docker-compose", "up", "-d"])
  | _ => false

/-- Counterexample to C3: on macOS — which is outside the platforms the
symlink step supports — `create_wordpress_site` does not log an
"unsupported" message and skip the step; the read of the never-assigned
`nginx_conf_symlink` raises `UnboundLocalError`, aborting provisioning
before the container-up command, with nothing logged. -/
theorem create_on_macos_aborts_with_unbound_local :
    (WordPressManager.create_wordpress_site darwinEnv "demo" demoWorld).2
      = .error (.unboundLocal "nginx_conf_symlink") ∧
    (WordPressManager.create_wordpress_site darwinEnv "demo"
        demoWorld).1.trace.any isComposeUpRun = false ∧
    (WordPressManager.create_wordpress_site darwinEnv "demo" demoWorld).1.log
      = [] := by
  decide

/-- C3 as amended: the platform-dispatched helper steps — package install,
symlink creation, hosts-file modification — each log an explicit
"unsupported" message and return without error and without running any
command on the platforms they do not support; but the symlink-target
selection inside `create_wordpress_site` covers only Linux and Windows, so
on any other platform the create workflow aborts with `UnboundLocalError`
instead of logging and skipping. -/
theorem unsupported_platform_steps_log_and_skip (env envd envl : Env)
    (w : World) (dep site_name src tgt s : String)
    (ho : env.platform = .other s)
    (hd : envd.platform = .darwin)
    (hl : envl.platform = .linux)
    (hld1 : ¬ (strLower envl.distro = "rhel" ∨ strLower envl.distro = "centos" ∨
               strLower envl.distro = "suse"))
    (hld2 : ¬ strLower envl.distro = "ubuntu")
    (hdir : resolveSeg w.cwd site_name ∈ w.fs.dirs) :
    DockerManager.install_dependency env dep w
      = ({ w with log := w.log ++
            [dep ++ " is not installed. Installing...",
             "Package installation is not supported on this operating system."] },
         .ok ()) ∧
    DockerManager.install_dependency envl dep w
      = ({ w with log := w.log ++
            [dep ++ " is not installed. Installing...",
             "Package installation is not supported on this Linux distribution."] },
         .ok ()) ∧
    DockerManager.create_symbolic_link envd src tgt w
      = ({ w with log := w.log ++
            ["Symbolic link creation is not supported on this operating system."] },
         .ok ()) ∧
    DockerManager.create_symbolic_link env src tgt w
      = ({ w with log := w.log ++
            ["Symbolic link creation is not supported on this operating system."] },
         .ok ()) ∧
    WordPressManager.add_hosts_entry envd site_name w
      = ({ w with log := w.log ++
            ["Hosts file modification is not supported on this operating system."] },
         .ok ()) ∧
    (WordPressManager.create_wordpress_site envd site_name w).2
      = .error (.unboundLocal "nginx_conf_symlink") := by
  refine ⟨?_, ?_, ?_, ?_, ?_, ?_⟩
  · simp [DockerManager.install_dependency, logMsg, ho]
  · simp [DockerManager.install_dependency, logMsg, hl, hld1, hld2]
  · simp [DockerManager.create_symbolic_link, logMsg, hd]
  · simp [DockerManager.create_symbolic_link, logMsg, ho]
  · simp [WordPressManager.add_hosts_entry, logMsg, hd]
  · simp [WordPressManager.create_wordpress_site, osChdir, writeFileAt,
          hdir, hd]

/-- An environment on an operating system the program knows nothing about. -/
def otherEnv : Env :=
  { platform := .other "FreeBSD", distro := "",
    execExists := fun _ => true, runOk := fun _ => true,
    hostsWriteOk := true }

/-- An environment on an unknown Linux distribution. -/
def unknownDistroEnv : Env :=
  { platform := .linux, distro := "Arch",
    execExists := fun _ => true, runOk := fun _ => true,
    hostsWriteOk := true }

/-- Witness for the amended C3 at concrete environments. -/
theorem unsupported_platform_steps_log_and_skip_witness :
    DockerManager.install_dependency otherEnv "docker" demoWorld
      = ({ demoWorld with log := demoWorld.log ++
            ["docker is not installed. Installing...",
             "Package installation is not supported on this operating system."] },
         .ok ()) ∧
    DockerManager.install_dependency unknownDistroEnv "docker" demoWorld
      = ({ demoWorld with log := demoWorld.log ++
            ["docker is not installed. Installing...",
             "Package installation is not supported on this Linux distribution."] },
         .ok ()) ∧
    DockerManager.create_symbolic_link darwinEnv "src" "tgt" demoWorld
      = ({ demoWorld with log := demoWorld.log ++
            ["Symbolic link creation is not supported on this operating system."] },
         .ok ()) ∧
    DockerManager.create_symbolic_link otherEnv "src" "tgt" demoWorld
      = ({ demoWorld with log := demoWorld.log ++
            ["Symbolic link creation is not supported on this operating system."] },
         .ok ()) ∧
    WordPressManager.add_hosts_entry darwinEnv "demo" demoWorld
      = ({ demoWorld with log := demoWorld.log ++
            ["Hosts file modification is not supported on this operating system."] },
         .ok ()) ∧
    (WordPressManager.create_wordpress_site darwinEnv "demo" demoWorld).2
      = .error (.unboundLocal "nginx_conf_symlink") :=
  unsupported_platform_steps_log_and_skip otherEnv darwinEnv unknownDistroEnv
    demoWorld "docker" "demo" "src" "tgt" "FreeBSD" rfl rfl rfl
    (by decide) (by decide) (by decide)

/-- Counterexample to C6: the two revisions do not implement identical
delete logic.  From `/root/work` with the site at `/root/work/demo`, the
`main.py` version runs `docker-compose down` in `/root/work` and then fails
with `FileNotFoundError` trying to remove `/root/demo`, leaving the site
directory in place, while the `wordpressManager.py` version runs the down
command inside `/root/work/demo` and removes the site directory: different
external-command placement, different filesystem effects, different
failure. -/
theorem delete_revisions_diverge :
    (WordPressManager.delete_site linuxEnv "demo" demoWorld).2
      = .error (.fileNotFound "/root/demo") ∧
    (WordPressManager.delete_site linuxEnv "demo" demoWorld).1.trace
      = [.chdir ["root", "work"],
         .run ["docker-compose", "down"] ["root", "work"],
         .chdir ["root"]] ∧
    (ModRev.delete_site linuxEnv "demo" demoWorld).1.trace
      = [.chdir ["root", "work", "demo"],
         .run ["docker-compose", "down"] ["root", "work", "demo"],
         .chdir ["root", "work"],
         .run ["sudo", "rm", "-rf", "demo"] ["root", "work"],
         .rmtree ["root", "work", "demo"]] ∧
    (WordPressManager.delete_site linuxEnv "demo" demoWorld).1.fs.dirs
      ≠ (ModRev.delete_site linuxEnv "demo" demoWorld).1.fs.dirs := by
  decide

/-- C6 as amended: the revisions are textually identical for the dependency
check, the install dispatch, symlink creation and site creation (embedded
once above), and their `enable_disable_site` and `add_hosts_entry` agree on
every external command, filesystem effect and hosts-file effect — the split
revision differs there only by its broken `Logger` class-method logging
calls, which raise `TypeError` after those effects; `delete_site` genuinely
diverges between the revisions. -/
theorem revisions_agree_outside_delete_and_logger (env : Env)
    (action site_name : String) (w : World) :
    (ModRev.enable_disable_site env action w).1.trace
      = (WordPressManager.enable_disable_site env action w).1.trace ∧
    (ModRev.enable_disable_site env action w).1.fs
      = (WordPressManager.enable_disable_site env action w).1.fs ∧
    (ModRev.enable_disable_site env action w).1.hosts
      = (WordPressManager.enable_disable_site env action w).1.hosts ∧
    (ModRev.enable_disable_site env action w).1.symlinks
      = (WordPressManager.enable_disable_site env action w).1.symlinks ∧
    (ModRev.add_hosts_entry env site_name w).1.trace
      = (WordPressManager.add_hosts_entry env site_name w).1.trace ∧
    (ModRev.add_hosts_entry env site_name w).1.fs
      = (WordPressManager.add_hosts_entry env site_name w).1.fs ∧
    (ModRev.add_hosts_entry env site_name w).1.hosts
      = (WordPressManager.add_hosts_entry env site_name w).1.hosts ∧
    (ModRev.add_hosts_entry env site_name w).1.symlinks
      = (WordPressManager.add_hosts_entry env site_name w).1.symlinks := by
  refine ⟨?_, ?_, ?_, ?_, ?_, ?_, ?_, ?_⟩ <;>
    (simp only [ModRev.enable_disable_site,
                WordPressManager.enable_disable_site,
                ModRev.add_hosts_entry, WordPressManager.add_hosts_entry]
     repeat' split) <;>
    simp only [subprocessRun, logMsg] at * <;>
    split_ifs at * <;> simp only [Prod.mk.injEq] at * <;> casesm* _ ∧ _ <;>
    (try subst_vars) <;> simp_all

theorem isPrefixOf_self (p : FPath) : p.isPrefixOf p = true := by
  rw [List.isPrefixOf_iff_prefix]

theorem lookupAssoc_filter_removed (l : List (FPath × String)) (p : FPath) :
    lookupAssoc (l.filter fun q => !(p.isPrefixOf q.1)) p = none := by
  induction l with
  | nil => rfl
  | cons a t ih =>
    cases hp : p.isPrefixOf a.1 with
    | true => simp [List.filter_cons, hp, ih]
    | false =>
      have hne : a.1 ≠ p := by
        intro he
        rw [he, isPrefixOf_self] at hp
        simp at hp
      simp [List.filter_cons, hp, lookupAssoc, hne, ih]

/-- After `rmtree p` the path `p` itself no longer exists. -/
theorem rmtree_not_pathExists (fs : FS) (p : FPath) :
    ¬ (fs.rmtree p).pathExists p := by
  intro h
  rcases h with h | h
  · rw [FS.rmtree] at h
    simp only [List.mem_filter] at h
    rw [isPrefixOf_self] at h
    simp at h
  · rw [FS.rmtree] at h
    exact h (lookupAssoc_filter_removed fs.files p)

/-- C4: after a successful `create` (the process sits inside the site
directory `W ++ [site_name]`), `delete_site` succeeds, invokes the
container-down command strictly before removing the site directory tree (the
trace lists the down invocation before the removal event), and afterwards
the site directory no longer exists. -/
theorem delete_after_create_removes_dir (env : Env) (site_name : String)
    (W : FPath) (w : World)
    (hne : site_name ≠ "..")
    (hcwd : w.cwd = W ++ [site_name])
    (hdir : W ++ [site_name] ∈ w.fs.dirs)
    (hW : W ∈ w.fs.dirs)
    (hdc : env.execExists "docker-compose" = true)
    (hok : env.runOk ["docker-compose", "down"] = true) :
    (WordPressManager.delete_site env site_name w).2 = .ok () ∧
    ¬ (WordPressManager.delete_site env site_name w).1.fs.pathExists
        (W ++ [site_name]) ∧
    (WordPressManager.delete_site env site_name w).1.trace
      = w.trace ++ [.chdir (W ++ [site_name]),
                    .run ["docker-compose", "down"] (W ++ [site_name]),
                    .chdir W, .rmtree (W ++ [site_name])] := by
  have hres : WordPressManager.delete_site env site_name w
      = ({ cwd := W,
           fs := w.fs.rmtree (W ++ [site_name]),
           hosts := w.hosts, symlinks := w.symlinks,
           trace := w.trace ++
             [.chdir (W ++ [site_name]),
              .run ["docker-compose", "down"] (W ++ [site_name]),
              .chdir W, .rmtree (W ++ [site_name])],
           log := w.log ++ ["Site deleted."] }, .ok ()) := by
    simp [WordPressManager.delete_site, osChdirAbs, osChdir, subprocessRun,
          shutilRmtree, logMsg, resolveSeg, hcwd, hne, hdir, hW, hdc, hok,
          FS.pathExists]
  rw [hres]
  exact ⟨rfl, rmtree_not_pathExists w.fs (W ++ [site_name]), rfl⟩

/-- The world right after a successful `create("demo")`: the process sits
inside the site directory. -/
def createdWorld : World :=
  { cwd := ["root", "work", "demo"],
    fs := { dirs := [[], ["root"], ["root", "work"], ["root", "work", "demo"]],
            files := [] },
    hosts := [], symlinks := [], trace := [], log := [] }

/-- Witness for C4 at site "demo" from `createdWorld`. -/
theorem delete_after_create_removes_dir_witness :
    (WordPressManager.delete_site linuxEnv "demo" createdWorld).2 = .ok () ∧
    ¬ (WordPressManager.delete_site linuxEnv "demo"
        createdWorld).1.fs.pathExists (["root", "work"] ++ ["demo"]) ∧
    (WordPressManager.delete_site linuxEnv "demo" createdWorld).1.trace
      = createdWorld.trace ++
        [.chdir (["root", "work"] ++ ["demo"]),
         .run ["docker-compose", "down"] (["root", "work"] ++ ["demo"]),
         .chdir ["root", "work"], .rmtree (["root", "work"] ++ ["demo"])] :=
  delete_after_create_removes_dir linuxEnv "demo" ["root", "work"]
    createdWorld (by decide) rfl (by decide) (by decide) rfl rfl


/-- The full effect of `create_wordpress_site` on Linux when every external
command succeeds and the site directory exists. -/
theorem create_linux_ok (site_name : String) (w : World)
    (hne : site_name ≠ "..")
    (hdir : w.cwd ++ [site_name] ∈ w.fs.dirs) :
    WordPressManager.create_wordpress_site linuxEnv site_name w
      = ({ cwd := w.cwd ++ [site_name],
           fs := { dirs := w.fs.dirs,
                   files :=
                     (w.cwd ++ [site_name, "nginx.conf"],
                      nginx_content site_name) ::
                     (w.cwd ++ [site_name, "docker-compose.yml"],
                      compose_content) :: w.fs.files },
           hosts := w.hosts,
           symlinks := w.symlinks ++
             [(pathStr (w.cwd ++ [site_name, "nginx.conf"]),
               "/etc/nginx/sites-enabled/")],
           trace := w.trace ++
             [.chdir (w.cwd ++ [site_name]),
              .writeFile (w.cwd ++ [site_name, "docker-compose.yml"]),
              .writeFile (w.cwd ++ [site_name, "nginx.conf"]),
              .run ["sudo", "ln", "-s",
                    pathStr (w.cwd ++ [site_name, "nginx.conf"]),
                    "/etc/nginx/sites-enabled/"] (w.cwd ++ [site_name]),
              .symlink (pathStr (w.cwd ++ [site_name, "nginx.conf"]))
                "/etc/nginx/sites-enabled/",
              .run ["docker-compose", "up", "-d"] (w.cwd ++ [site_name])],
           log := w.log }, .ok ()) := by
  simp [WordPressManager.create_wordpress_site, osChdir, writeFileAt,
        DockerManager.create_symbolic_link, subprocessRun, logMsg,
        resolveSeg, hne, hdir, FS.writeFile, linuxEnv]


/-- One `create` invocation of the CLI (lines 298-301 of `main.py`) on Linux
with the site directory already present: it does not error, and leaves both
generated files holding exactly the rendered contents. -/
theorem createFlow_linux_lookups (site_name : String) (w : World)
    (hne : site_name ≠ "..")
    (hdir : w.cwd ++ [site_name] ∈ w.fs.dirs) :
    (createFlow linuxEnv site_name w).2 = .ok () ∧
    (createFlow linuxEnv site_name w).1.fs.lookupFile
        (w.cwd ++ [site_name, "docker-compose.yml"]) = some compose_content ∧
    (createFlow linuxEnv site_name w).1.fs.lookupFile
        (w.cwd ++ [site_name, "nginx.conf"])
      = some (nginx_content site_name) ∧
    (createFlow linuxEnv site_name w).1.cwd = w.cwd ++ [site_name] ∧
    (createFlow linuxEnv site_name w).1.fs.dirs = w.fs.dirs := by
  have hex : w.fs.pathExists (resolveSeg w.cwd site_name) := by
    rw [resolveSeg, if_neg hne]
    exact Or.inl hdir
  have hcf : createFlow linuxEnv site_name w
      = WordPressManager.create_wordpress_site linuxEnv site_name w := by
    simp [createFlow, hex]
  rw [hcf, create_linux_ok site_name w hne hdir]
  refine ⟨rfl, ?_, ?_, rfl, rfl⟩ <;>
    simp [FS.lookupFile, lookupAssoc]


/-- C1: running `create` when the site directory already exists is not an
error and overwrites both generated config files; running `create` twice in
a row (each invocation a fresh process started from the same working
directory) leaves the same `docker-compose.yml` and `nginx.conf` contents
as running it once. -/
theorem createFlow_existing_dir_overwrites (site_name : String) (w : World)
    (hne : site_name ≠ "..")
    (hdir : w.cwd ++ [site_name] ∈ w.fs.dirs) :
    (createFlow linuxEnv site_name w).2 = .ok () ∧
    (createFlow linuxEnv site_name w).1.fs.lookupFile
        (w.cwd ++ [site_name, "docker-compose.yml"]) = some compose_content ∧
    (createFlow linuxEnv site_name w).1.fs.lookupFile
        (w.cwd ++ [site_name, "nginx.conf"])
      = some (nginx_content site_name) ∧
    (createFlow linuxEnv site_name
        { (createFlow linuxEnv site_name w).1 with cwd := w.cwd }).2
      = .ok () ∧
    (createFlow linuxEnv site_name
        { (createFlow linuxEnv site_name w).1 with
            cwd := w.cwd }).1.fs.lookupFile
        (w.cwd ++ [site_name, "docker-compose.yml"])
      = (createFlow linuxEnv site_name w).1.fs.lookupFile
          (w.cwd ++ [site_name, "docker-compose.yml"]) ∧
    (createFlow linuxEnv site_name
        { (createFlow linuxEnv site_name w).1 with
            cwd := w.cwd }).1.fs.lookupFile
        (w.cwd ++ [site_name, "nginx.conf"])
      = (createFlow linuxEnv site_name w).1.fs.lookupFile
          (w.cwd ++ [site_name, "nginx.conf"]) := by
  obtain ⟨h1, h2, h3, h4, h5⟩ := createFlow_linux_lookups site_name w hne hdir
  set w2 : World :=
    { (createFlow linuxEnv site_name w).1 with cwd := w.cwd } with hw2
  have hcw : w2.cwd = w.cwd := rfl
  have hdir2 : w2.cwd ++ [site_name] ∈ w2.fs.dirs := by
    rw [hcw]
    show w.cwd ++ [site_name] ∈ (createFlow linuxEnv site_name w).1.fs.dirs
    rw [h5]
    exact hdir
  obtain ⟨g1, g2, g3, g4, g5⟩ :=
    createFlow_linux_lookups site_name w2 hne hdir2
  rw [hcw] at g2 g3
  exact ⟨h1, h2, h3, g1, by rw [g2, h2], by rw [g3, h3]⟩

/-- Witness for C1 at site "demo" from `demoWorld`. -/
theorem createFlow_existing_dir_overwrites_witness :
    (createFlow linuxEnv "demo" demoWorld).2 = .ok () ∧
    (createFlow linuxEnv "demo" demoWorld).1.fs.lookupFile
        (demoWorld.cwd ++ ["demo", "docker-compose.yml"])
      = some compose_content ∧
    (createFlow linuxEnv "demo" demoWorld).1.fs.lookupFile
        (demoWorld.cwd ++ ["demo", "nginx.conf"])
      = some (nginx_content "demo") ∧
    (createFlow linuxEnv "demo"
        { (createFlow linuxEnv "demo" demoWorld).1 with
            cwd := demoWorld.cwd }).2 = .ok () ∧
    (createFlow linuxEnv "demo"
        { (createFlow linuxEnv "demo" demoWorld).1 with
            cwd := demoWorld.cwd }).1.fs.lookupFile
        (demoWorld.cwd ++ ["demo", "docker-compose.yml"])
      = (createFlow linuxEnv "demo" demoWorld).1.fs.lookupFile
          (demoWorld.cwd ++ ["demo", "docker-compose.yml"]) ∧
    (createFlow linuxEnv "demo"
        { (createFlow linuxEnv "demo" demoWorld).1 with
            cwd := demoWorld.cwd }).1.fs.lookupFile
        (demoWorld.cwd ++ ["demo", "nginx.conf"])
      = (createFlow linuxEnv "demo" demoWorld).1.fs.lookupFile
          (demoWorld.cwd ++ ["demo", "nginx.conf"]) :=
  createFlow_existing_dir_overwrites "demo" demoWorld (by decide) (by decide)

/-- Inversion for `subprocessRun`: it never changes the working directory
and only appends to the trace. -/
theorem subprocessRun_inv (env : Env) (argv : List String) (check : Bool)
    (w w' : World) (r : Except PyErr Unit)
    (h : subprocessRun env argv check w = (w', r)) :
    w'.cwd = w.cwd ∧ ∃ t, w'.trace = w.trace ++ t := by
  unfold subprocessRun at h
  cases argv with
  | nil =>
    obtain ⟨h1, h2⟩ := Prod.mk.injEq .. ▸ h
    subst h1
    exact ⟨rfl, [], by simp⟩
  | cons p rest =>
    dsimp only at h
    split_ifs at h <;> obtain ⟨h1, h2⟩ := Prod.mk.injEq .. ▸ h <;> subst h1
    · exact ⟨rfl, [.run (p :: rest) w.cwd], rfl⟩
    · exact ⟨rfl, [.run (p :: rest) w.cwd], rfl⟩
    · exact ⟨rfl, [], by simp⟩

/-- Inversion for `create_symbolic_link`: it never changes the working
directory and only appends to the trace. -/
theorem create_symbolic_link_inv (env : Env) (s t : String)
    (w w' : World) (r : Except PyErr Unit)
    (h : DockerManager.create_symbolic_link env s t w = (w', r)) :
    w'.cwd = w.cwd ∧ ∃ et, w'.trace = w.trace ++ et := by
  unfold DockerManager.create_symbolic_link at h
  split at h
  · rcases hs : subprocessRun env ["sudo", "ln", "-s", s, t] true w
      with ⟨w1, r1⟩
    rw [hs] at h
    obtain ⟨hc, t1, ht⟩ := subprocessRun_inv env _ true w w1 r1 hs
    cases r1 with
    | error e =>
      obtain ⟨h1, h2⟩ := Prod.mk.injEq .. ▸ h
      subst h1
      exact ⟨hc, t1, ht⟩
    | ok _ =>
      obtain ⟨h1, h2⟩ := Prod.mk.injEq .. ▸ h
      subst h1
      exact ⟨hc, t1 ++ [.symlink s t], by rw [← List.append_assoc, ← ht]⟩
  · rcases hs : subprocessRun env ["cmd", "/C", "mklink", "/D", t, s] true w
      with ⟨w1, r1⟩
    rw [hs] at h
    obtain ⟨hc, t1, ht⟩ := subprocessRun_inv env _ true w w1 r1 hs
    cases r1 with
    | error e =>
      obtain ⟨h1, h2⟩ := Prod.mk.injEq .. ▸ h
      subst h1
      exact ⟨hc, t1, ht⟩
    | ok _ =>
      obtain ⟨h1, h2⟩ := Prod.mk.injEq .. ▸ h
      subst h1
      exact ⟨hc, t1 ++ [.symlink s t], by rw [← List.append_assoc, ← ht]⟩
  · obtain ⟨h1, h2⟩ := Prod.mk.injEq .. ▸ h
    subst h1
    exact ⟨by simp [logMsg], [], by simp [logMsg]⟩

/-- `create_wordpress_site` changes into the site directory as its first
step (the first new trace event is the `chdir`) and no later step — on any
platform and any external-command outcome — restores the previous working
directory. -/
theorem create_cwd_after_chdir (env : Env) (site_name : String) (w : World)
    (hne : site_name ≠ "..")
    (hdir : w.cwd ++ [site_name] ∈ w.fs.dirs) :
    (WordPressManager.create_wordpress_site env site_name w).1.cwd
      = w.cwd ++ [site_name] ∧
    (∃ rest, (WordPressManager.create_wordpress_site env site_name w).1.trace
      = w.trace ++ .chdir (w.cwd ++ [site_name]) :: rest) := by
  have hch : osChdir site_name w
      = ({ w with
             cwd := w.cwd ++ [site_name],
             trace := w.trace ++ [.chdir (w.cwd ++ [site_name])] },
         Except.ok ()) := by
    simp [osChdir, resolveSeg, hne, hdir]
  simp only [WordPressManager.create_wordpress_site, hch, writeFileAt]
  try dsimp only
  split
  · refine ⟨rfl,
      ⟨[.writeFile (w.cwd ++ [site_name] ++ ["docker-compose.yml"]),
        .writeFile (w.cwd ++ [site_name] ++ ["nginx.conf"])], ?_⟩⟩
    simp
  · split
    · rename_i heq
      obtain ⟨hc, et, ht⟩ := create_symbolic_link_inv _ _ _ _ _ _ heq
      refine ⟨by simp [hc],
        ⟨[.writeFile (w.cwd ++ [site_name] ++ ["docker-compose.yml"]),
          .writeFile (w.cwd ++ [site_name] ++ ["nginx.conf"])] ++ et, ?_⟩⟩
      simp only []
      rw [ht]
      simp
    · rename_i w3 a3 heq
      rcases hu : subprocessRun env ["docker-compose", "up", "-d"] true w3
        with ⟨w4, r4⟩
      obtain ⟨hc3, et3, ht3⟩ := create_symbolic_link_inv _ _ _ _ _ _ heq
      obtain ⟨hc4, et4, ht4⟩ := subprocessRun_inv _ _ _ _ _ _ hu
      refine ⟨by simp [hc4, hc3],
        ⟨[.writeFile (w.cwd ++ [site_name] ++ ["docker-compose.yml"]),
          .writeFile (w.cwd ++ [site_name] ++ ["nginx.conf"])] ++ et3 ++ et4,
         ?_⟩⟩
      simp only []
      rw [ht4, ht3]
      simp

theorem add_hosts_entry_cwd (env : Env) (x : String) (w : World) :
    (WordPressManager.add_hosts_entry env x w).1.cwd = w.cwd := by
  simp only [WordPressManager.add_hosts_entry]
  repeat' split <;> simp_all [logMsg]

theorem enable_disable_site_cwd (env : Env) (x : String) (w : World) :
    (WordPressManager.enable_disable_site env x w).1.cwd = w.cwd := by
  simp only [WordPressManager.enable_disable_site]
  repeat' split
  all_goals try rfl
  all_goals rename_i heq
  all_goals first
    | (obtain ⟨hc, -⟩ := subprocessRun_inv _ _ _ _ _ _ heq
       simpa [logMsg] using hc)
    | rfl

/-- C10: `create_wordpress_site` changes the working directory into the
site directory as its first step and never restores it, and the operations
run after create in the same process (the hosts-file append, enable and
disable) never change the working directory, so they all execute with the
site directory as the current working directory. -/
theorem create_chdir_persists (env : Env) (site_name : String) (w : World)
    (hne : site_name ≠ "..")
    (hdir : w.cwd ++ [site_name] ∈ w.fs.dirs) :
    (WordPressManager.create_wordpress_site env site_name w).1.cwd
      = w.cwd ++ [site_name] ∧
    (∃ rest, (WordPressManager.create_wordpress_site env site_name w).1.trace
      = w.trace ++ .chdir (w.cwd ++ [site_name]) :: rest) ∧
    (∀ (env2 : Env) (n2 : String) (w2 : World),
      (WordPressManager.add_hosts_entry env2 n2 w2).1.cwd = w2.cwd) ∧
    (∀ (env2 : Env) (a2 : String) (w2 : World),
      (WordPressManager.enable_disable_site env2 a2 w2).1.cwd = w2.cwd) := by
  obtain ⟨h1, h2⟩ := create_cwd_after_chdir env site_name w hne hdir
  exact ⟨h1, h2, add_hosts_entry_cwd, enable_disable_site_cwd⟩

/-- Witness for C10 at site "demo" from `demoWorld`. -/
theorem create_chdir_persists_witness :
    (WordPressManager.create_wordpress_site linuxEnv "demo" demoWorld).1.cwd
      = demoWorld.cwd ++ ["demo"] ∧
    (∃ rest,
      (WordPressManager.create_wordpress_site linuxEnv "demo"
          demoWorld).1.trace
        = demoWorld.trace ++
            Event.chdir (demoWorld.cwd ++ ["demo"]) :: rest) ∧
    (∀ (env2 : Env) (n2 : String) (w2 : World),
      (WordPressManager.add_hosts_entry env2 n2 w2).1.cwd = w2.cwd) ∧
    (∀ (env2 : Env) (a2 : String) (w2 : World),
      (WordPressManager.enable_disable_site env2 a2 w2).1.cwd = w2.cwd) :=
  create_chdir_persists linuxEnv "demo" demoWorld (by decide) (by decide)
